import Mathlib

/-!
Verification development for the email_agents_workflow orchestration core.

The Lean definitions below are a shallow embedding of the repository's
Python source:

* `Email_Crew_Pipeline` and `manager_orchestrator` embed `crew.py`
  (lines 176-431).  The LLM crews (categorizer, intent router, casual
  responder, email responder, task execution, reminder sub-classifier,
  todo/event creators, no-action summarizer) are external
  non-deterministic collaborators; they are modelled as an `Oracles`
  record of arbitrary functions, so every theorem quantifies over all
  possible classifier/generator outputs.  The module-level constants
  `current_utc_date` and `local_tz` are gathered in `Env`.
* `normalizeTask` / `normalize_due_dates` embed
  `tools/natural_language_date_parser.py` (`NormalizeDueDatesTool._run`);
  `dateparser.parse(s, settings={PREFER_DATES_FROM: future})` followed by
  `.isoformat()` is modelled by the abstract parameters `parse` and `iso`.
* `next_weekday_date_tool` embeds `tools/next_weekday_date_tool.py`;
  Python datetimes are modelled by `PyDateTime`, whose `day` field is an
  absolute day index with `day % 7 = 0` meaning Monday (matching
  `datetime.weekday()`), and adding a `timedelta(days = n)` is `day + n`.
* `processTask` embeds the per-task loop body of
  `tools/create_tasks_tool.py` (`create_tasks_from_summary`, lines 36-58).
* `insert_message`, `update_conversation_title` and `record_qa` embed
  `db_utils.py`; the database is modelled by `DB` (the `messages` table
  and the `conversations` table rows that carry titles; `last_message_at`
  timestamps are not modelled, no claim mentions them).

Python dicts whose keys are fixed by the code are modelled as structures
with `Option` fields (`none` = key absent or value `None`); dicts with
arbitrary keys (the task records normalized by `NormalizeDueDatesTool`)
are modelled as association lists with unique keys, `PyDict`.
-/

namespace EmailWorkflow

/-- Module-level constants of `crew.py`: `current_utc_date` (line 11) and
`local_tz` (line 14). -/
structure Env where
  current_utc_date : String
  local_tz : String
deriving Repr, DecidableEq

/-- The fully seeded payload dict handed to `Email_Crew_Pipeline` by
`manager_orchestrator` (crew.py lines 207-220 and 236-245).  A field value
`none` models a key that is absent or has value `None`. -/
structure Payload where
  type : Option String := none
  question : Option String := none
  body : Option String := none
  id : Option String := none
  subject : Option String := none
  bodyPreview : Option String := none
  sender : Option String := none
  receiver : Option String := none
  receivedDateTime : Option String := none
  userId : Option String := none
  conversation_id : Option String := none
  attachments : Option String := none
deriving Repr, DecidableEq

/-- The crews defined in `crew.py` that the dispatcher can kick off. -/
inductive CrewName
  | categorizer
  | intentRouter
  | casual
  | emailResponder
  | emailTaskExecution
  | reminder
  | reminderTodo
  | reminderEvent
  | noAction
deriving Repr, DecidableEq

/-- `draft_payload` built at crew.py lines 292-295. -/
structure DraftPayload where
  question : Option String
  sender_email : Option String
deriving Repr, DecidableEq

/-- `create_task_payload` built at crew.py lines 325-337. -/
structure CreateTaskPayload where
  id : Option String
  receivedDateTime : Option String
  subject : Option String
  bodyPreview : Option String
  sender : Option String
  receiver : Option String
  userId : Option String
  mail_id : Option String
  sender_email : Option String
deriving Repr, DecidableEq

/-- `reminder_payload` built at crew.py lines 348-351. -/
structure ReminderPayload where
  question : Option String
  sender : Option String
deriving Repr, DecidableEq

/-- `todo_payload` built at crew.py lines 357-361. -/
structure TodoPayload where
  sender : Option String
  question : Option String
  current_date : String
deriving Repr, DecidableEq

/-- `event_payload` built at crew.py lines 376-381 and 396-401. -/
structure EventPayload where
  sender : Option String
  question : Option String
  current_date : String
  local_tz : String
deriving Repr, DecidableEq

/-- `summary_payload` built at crew.py lines 416-424. -/
structure SummaryPayload where
  id : Option String
  receivedDateTime : Option String
  subject : Option String
  bodyPreview : Option String
  sender : Option String
  userId : Option String
deriving Repr, DecidableEq

/-- The external LLM crews, modelled as arbitrary total functions from the
kickoff payload the dispatcher hands them to the raw string output the
dispatcher reads back (the `getattr(result, "output", str(result))`
unwrapping of crew.py).  Quantifying over `Oracles` quantifies over every
possible classifier/generator behaviour. -/
structure Oracles where
  categorize : String → Option String → String
  intent : Payload → String
  casual : Payload → String
  emailResponder : DraftPayload → String
  taskExecution : CreateTaskPayload → String
  reminderClassify : ReminderPayload → String
  todo : TodoPayload → String
  event : EventPayload → String
  noAction : SummaryPayload → String

/-- A terminal result dict of `Email_Crew_Pipeline`: the `type` and
`answer` entries, the optional `question` entry (`none` when the key is
absent or its value is `None`), and whether the dict was wrapped in a
`JSONResponse` (the reminder/event branches). -/
structure BranchResult where
  type : String
  answer : String
  question : Option String
  isJson : Bool
deriving Repr, DecidableEq

/-- One run of `Email_Crew_Pipeline`: the returned value (`none` models
the Python function falling through and returning `None`), the crews
kicked off in order, the `content` string handed to the categorizer crew,
and the `insert_record(conversation_id, question, answer)` calls made. -/
structure PipelineRun where
  result : Option BranchResult
  crews : List CrewName
  categorizerInput : String
  inserted : List (Option String × Option String × String)
deriving Repr, DecidableEq

/-- The whitespace characters removed by the Python `str.strip()`
(space, tab, newline, carriage return, vertical tab, form feed). -/
def isPySpace (c : Char) : Bool :=
  c = ' ' ∨ c = '\t' ∨ c = '\n' ∨ c = '\r' ∨ c.toNat = 11 ∨ c.toNat = 12

/-- Python `str.strip()`: drop leading and trailing whitespace. -/
def pyStrip (s : String) : String :=
  String.mk (((s.data.dropWhile isPySpace).reverse.dropWhile isPySpace).reverse)

/-- Python `str.lower()` (on the ASCII labels the dispatcher compares). -/
def pyLower (s : String) : String :=
  String.mk (s.data.map Char.toLower)

/-- Content selection of crew.py lines 258-263: the classified text is
`question` if non-empty after strip, else `body` if non-empty after strip,
else `body` with empty-string default. -/
def classifierContent (p : Payload) : String :=
  if pyStrip (p.question.getD "") ≠ "" then p.question.getD ""
  else if pyStrip (p.body.getD "") ≠ "" then p.body.getD ""
  else p.body.getD ""

/-- Category normalization of crew.py line 273:
`str(output).strip().lower()`. -/
def classifiedCategory (o : Oracles) (p : Payload) : String :=
  pyLower (pyStrip (o.categorize (classifierContent p) p.type))

/-- The fixed message of the spam branch (crew.py line 345). -/
def spamSkipMsg : String := "The message was skipped. It was not relevant to the user."

/-- The fixed message of the fall-through branch (crew.py line 431). -/
def unknownCategoryMsg : String := "The message was skipped. Unknown Category."

/-- Embedding of `Email_Crew_Pipeline` (crew.py lines 251-431): the
category gate and all branch dispatches, with the crews and
`insert_record` persistence calls recorded in the returned run. -/
def Email_Crew_Pipeline (env : Env) (o : Oracles) (p : Payload) : PipelineRun :=
  let content := classifierContent p
  let category := classifiedCategory o p
  let conversation_id := p.conversation_id
  if category = "requires_response" ∧ p.type = some "user_request" then
    let intent := pyLower (pyStrip (o.intent p))
    if intent = "general" ∨ intent = "can you send email" then
      let answer := o.casual p
      { result := some ⟨"casual_reply", answer, p.question, false⟩,
        crews := [.categorizer, .intentRouter, .casual],
        categorizerInput := content,
        inserted := [(conversation_id, p.question, answer)] }
    else if intent = "write email" then
      let answer := o.emailResponder ⟨p.question, p.sender⟩
      { result := some ⟨"email_written", answer, p.question, false⟩,
        crews := [.categorizer, .intentRouter, .emailResponder],
        categorizerInput := content,
        inserted := [(conversation_id, p.question, answer)] }
    else
      let answer := o.casual p
      { result := some ⟨"casual_reply", answer, p.question, false⟩,
        crews := [.categorizer, .intentRouter, .casual],
        categorizerInput := content,
        inserted := [(conversation_id, p.question, answer)] }
  else if category = "actionable_task" ∧ p.type = some "incoming_email" then
    let answer := o.taskExecution
      ⟨p.id, p.receivedDateTime, p.subject, p.bodyPreview, p.sender,
       p.receiver, p.userId, p.id, p.sender⟩
    { result := some ⟨"actionable_task", answer, none, false⟩,
      crews := [.categorizer, .emailTaskExecution],
      categorizerInput := content,
      inserted := [] }
  else if category = "spam/irrelevant" ∧ p.type = some "incoming_email" then
    { result := some ⟨"spam/irrelevant", spamSkipMsg, none, false⟩,
      crews := [.categorizer],
      categorizerInput := content,
      inserted := [] }
  else if category = "reminder" ∧ p.type = some "user_request" then
    let reminderType := o.reminderClassify ⟨p.question, p.sender⟩
    if reminderType = "todo" then
      let answer := o.todo ⟨p.sender, p.question, env.current_utc_date⟩
      { result := some ⟨"reminder_created", answer, p.question, true⟩,
        crews := [.categorizer, .reminder, .reminderTodo],
        categorizerInput := content,
        inserted := [(conversation_id, p.question, answer)] }
    else if reminderType = "event" then
      let answer := o.event ⟨p.sender, p.question, env.current_utc_date, env.local_tz⟩
      { result := some ⟨"event_created", answer, p.question, true⟩,
        crews := [.categorizer, .reminder, .reminderEvent],
        categorizerInput := content,
        inserted := [(conversation_id, p.question, answer)] }
    else
      { result := none,
        crews := [.categorizer, .reminder],
        categorizerInput := content,
        inserted := [] }
  else if category = "schedule_event" ∧ p.type = some "user_request" then
    let answer := o.event ⟨p.sender, p.question, env.current_utc_date, env.local_tz⟩
    { result := some ⟨"event_created", answer, p.question, true⟩,
      crews := [.categorizer, .reminderEvent],
      categorizerInput := content,
      inserted := [(conversation_id, p.question, answer)] }
  else if category = "no_action" ∧ p.type = some "incoming_email" then
    let answer := o.noAction
      ⟨p.id, p.receivedDateTime, p.subject, p.bodyPreview, p.sender, p.userId⟩
    { result := some ⟨"no_action", answer, none, false⟩,
      crews := [.categorizer, .noAction],
      categorizerInput := content,
      inserted := [] }
  else
    { result := some ⟨"unknown_category", unknownCategoryMsg, none, false⟩,
      crews := [.categorizer],
      categorizerInput := content,
      inserted := [] }

/-- The raw inputs dict received by `manager_orchestrator` (a webhook or
chat request); `none` models an absent key. -/
structure RawEvent where
  id : Option String := none
  question : Option String := none
  subject : Option String := none
  bodyPreview : Option String := none
  body : Option String := none
  sender : Option String := none
  receiver : Option String := none
  receivedDateTime : Option String := none
  userId : Option String := none
  conversation_id : Option String := none
  attachments : Option String := none
deriving Repr, DecidableEq

/-- The `ValueError` message raised at crew.py line 249 (quotes elided). -/
def malformedMsg : String :=
  "Manager Orchestrator received an unrecognized payload: neither id nor question present."

/-- Outcome of `manager_orchestrator`: the raised `ValueError`, the
incoming-email wrapper dict `{status: incoming_processed, result: ...}`
around a pipeline run, or the pipeline run returned directly for a user
request. -/
inductive DispatchResult
  | malformed (msg : String)
  | incomingProcessed (run : PipelineRun)
  | userRequest (run : PipelineRun)
deriving Repr, DecidableEq

/-- `kickoff_payload` built for an incoming-email event
(crew.py lines 207-220). -/
def incomingPayload (e : RawEvent) (i : String) : Payload :=
  { type := some "incoming_email",
    bodyPreview := some (e.bodyPreview.getD ""),
    subject := some (e.subject.getD ""),
    sender := some (e.sender.getD ""),
    receiver := some (e.receiver.getD ""),
    receivedDateTime := some (e.receivedDateTime.getD ""),
    id := some i,
    userId := e.userId,
    body := some (e.body.getD ""),
    question := some (e.question.getD ""),
    conversation_id := some (e.conversation_id.getD ""),
    attachments := none }

/-- `input_payload` built for a user request (crew.py lines 236-245); the
question is stripped at line 234. -/
def userRequestPayload (e : RawEvent) (q : String) : Payload :=
  { type := some "user_request",
    question := some (pyStrip q),
    sender := some (e.sender.getD ""),
    conversation_id := e.conversation_id,
    attachments := e.attachments,
    subject := some "",
    body := some "" }

/-- Embedding of `manager_orchestrator` (crew.py lines 176-249): type
resolution by key presence, `id` first. -/
def manager_orchestrator (env : Env) (o : Oracles) (e : RawEvent) : DispatchResult :=
  match e.id with
  | some i => .incomingProcessed (Email_Crew_Pipeline env o (incomingPayload e i))
  | none =>
    match e.question with
    | some q => .userRequest (Email_Crew_Pipeline env o (userRequestPayload e q))
    | none => .malformed malformedMsg

/-- The crews kicked off during one dispatch (none when the dispatcher
raised before running any pipeline). -/
def dispatchCrews : DispatchResult → List CrewName
  | .malformed _ => []
  | .incomingProcessed r => r.crews
  | .userRequest r => r.crews

/-- The pipeline result of a dispatch: `none` when no pipeline ran, and
otherwise the Python return value of `Email_Crew_Pipeline` (which is
itself an `Option`, `none` modelling Python `None`). -/
def dispatchRunResult : DispatchResult → Option (Option BranchResult)
  | .malformed _ => none
  | .incomingProcessed r => some r.result
  | .userRequest r => some r.result

/-! ## Python datetimes (`datetime.datetime`)

`day` is an absolute day index with `day % 7 = 0` meaning Monday, so
`weekday()` is `day % 7` and adding `timedelta(days = n)` adds `n` to
`day`. -/

structure PyDateTime where
  day : Nat
  hour : Nat
  minute : Nat
  second : Nat
  microsecond : Nat
deriving Repr, DecidableEq

/-- `current + timedelta(days = n)`. -/
def PyDateTime.addDays (d : PyDateTime) (n : Nat) : PyDateTime :=
  { d with day := d.day + n }

/-! ## `tools/next_weekday_date_tool.py` -/

/-- The `weekday_map` dict lookup `weekday_map[weekday_name.lower()]`
(lines 20-24); `none` models the `KeyError` on an unknown name. -/
def weekdayLookup (s : String) : Option Nat :=
  if s = "monday" then some 0
  else if s = "tuesday" then some 1
  else if s = "wednesday" then some 2
  else if s = "thursday" then some 3
  else if s = "friday" then some 4
  else if s = "saturday" then some 5
  else if s = "sunday" then some 6
  else none

/-- Embedding of `next_weekday_date_tool` (lines 20-36).  The Python
`(target_weekday - current_date.weekday() + 7) % 7` on ints equals the
Nat expression `(target + 7 - weekday) % 7` because `weekday ≤ 6`. -/
def next_weekday_date_tool (cur : PyDateTime) (weekday_name : String)
    (hour minute : Nat) : Option PyDateTime :=
  (weekdayLookup (pyLower weekday_name)).map (fun target =>
    let days_ahead := (target + 7 - cur.day % 7) % 7
    let days_ahead :=
      if days_ahead = 0 ∧ (cur.hour > hour ∨ (cur.hour = hour ∧ cur.minute ≥ minute)) then 7
      else days_ahead
    { day := cur.day + days_ahead, hour := hour, minute := minute,
      second := 0, microsecond := 0 })

/-! ## `tools/natural_language_date_parser.py` (`NormalizeDueDatesTool`)

Task records here are JSON objects with arbitrary keys, modelled as
association lists with unique keys.  A value is a string, `None`, or some
other JSON value (`other`). -/

inductive PyVal
  | str (s : String)
  | pynone
  | other
deriving Repr, DecidableEq

/-- A Python dict with string keys (unique). -/
abbrev PyDict : Type := List (String × PyVal)

/-- `k in d`. -/
def dictContains (k : String) (d : PyDict) : Bool :=
  d.any (fun p => p.1 = k)

/-- `d.get(k)` / `d[k]`: the first binding of `k`. -/
def dictLookup (k : String) (d : PyDict) : Option PyVal :=
  (d.find? (fun p => p.1 = k)).map (fun p => p.2)

/-- `d[k] = v`: replace the binding of `k`, or append it if absent. -/
def dictSet (k : String) (v : PyVal) (d : PyDict) : PyDict :=
  if dictContains k d then d.map (fun p => if p.1 = k then (k, v) else p)
  else d ++ [(k, v)]

/-- `d.pop(k, None)` (the value is discarded by the tool). -/
def dictPop (k : String) (d : PyDict) : PyDict :=
  d.filter (fun p => p.1 ≠ k)

/-- The per-task body of `NormalizeDueDatesTool._run` (lines 12-21).
`parse` models `dateparser.parse(s, settings={PREFER_DATES_FROM: future})`
and `iso` models `datetime.isoformat`. -/
def normalizeTask (parse : String → Option PyDateTime) (iso : PyDateTime → String)
    (task : PyDict) : PyDict :=
  match dictLookup "due_at" task with
  | some (.str s) =>
    match parse s with
    | some d => dictSet "due_at" (.str (iso d)) task
    | none => dictPop "due_at" task
  | some .pynone => dictPop "due_at" task
  | some .other => task
  | none => dictPop "due_at" task

/-- `NormalizeDueDatesTool._run` over the whole task list (lines 11-22);
the Python loop mutates each list element in place and returns the list,
which is a map. -/
def normalize_due_dates (parse : String → Option PyDateTime)
    (iso : PyDateTime → String) (tasks : List PyDict) : List PyDict :=
  tasks.map (normalizeTask parse iso)

/-! ## `tools/create_tasks_tool.py` (`create_tasks_from_summary`) -/

/-- A decoded JSON task object as read by the loop body: only the three
keys the code touches, each possibly absent or `None`. -/
structure JsonTask where
  title : Option String
  detail : Option String
  due_at : Option String
deriving Repr, DecidableEq

/-- One `insert_new_task` call (db_utils.py line 209). -/
structure InsertTaskCall where
  user_id : Int
  mail_id : String
  title : String
  detail : String
  due_at : Option String
deriving Repr, DecidableEq

/-- The per-task loop body of `create_tasks_from_summary` (lines 36-58):
`none` models a skipped task (missing title or detail), `some c` the
`insert_new_task` call made.  `parse` models
`dateparser.parse(s, settings={PREFER_DATES_FROM: future})`, `iso` models
`datetime.isoformat`, and `now` models `datetime.now()`. -/
def processTask (parse : String → Option PyDateTime) (iso : PyDateTime → String)
    (now : PyDateTime) (userId : Int) (id : String) (task : JsonTask) :
    Option InsertTaskCall :=
  let title := pyStrip (task.title.getD "")
  let detail := pyStrip (task.detail.getD "")
  let raw_due_at := pyStrip (task.due_at.getD "")
  let due_at : Option PyDateTime :=
    if raw_due_at ≠ "" then parse raw_due_at else some (now.addDays 3)
  if title = "" ∨ detail = "" then none
  else some ⟨userId, id, title, detail, due_at.map iso⟩

/-! ## `db_utils.py` (messages / conversation titles) -/

/-- A row of the `messages` table (the columns written by
`insert_message`). -/
structure Message where
  conversation_id : Int
  is_user : Bool
  content : String
  file_urls : Option String
deriving Repr, DecidableEq

/-- A row of the `conversations` table (only the columns the embedded
functions touch: `id` and `title`; `last_message_at` is not modelled). -/
structure ConversationRow where
  id : Int
  title : Option String
deriving Repr, DecidableEq

/-- The database state seen by `insert_message`, `record_qa` and
`update_conversation_title`. -/
structure DB where
  messages : List Message
  conversations : List ConversationRow
deriving Repr, DecidableEq

/-- `insert_message` (db_utils.py lines 85-103): one row appended to
`messages` (the `last_message_at` touch is not modelled). -/
def insert_message (db : DB) (conversation_id : Int) (is_user : Bool)
    (content : String) (file_urls : Option String) : DB :=
  { db with messages := db.messages ++ [⟨conversation_id, is_user, content, file_urls⟩] }

/-- `SELECT COUNT(*) FROM messages WHERE conversation_id = ...`. -/
def countMessages (db : DB) (conversation_id : Int) : Nat :=
  (db.messages.filter (fun m => m.conversation_id = conversation_id)).length

/-- `update_conversation_title` (db_utils.py lines 149-165): retitle the
conversation only when its message count is exactly 2 (the SQL `UPDATE`
touches only rows whose `id` matches). -/
def update_conversation_title (db : DB) (conversation_id : Int) (question : String) : DB :=
  if countMessages db conversation_id = 2 then
    { db with conversations := db.conversations.map (fun r =>
        if r.id = conversation_id then { r with title := some question } else r) }
  else db

/-- `record_qa` (db_utils.py lines 126-141): insert the question, insert
the answer, then conditionally retitle. -/
def record_qa (db : DB) (conversation_id : Int) (question answer : String)
    (file_urls : Option String) : DB :=
  update_conversation_title
    (insert_message (insert_message db conversation_id true question file_urls)
      conversation_id false answer file_urls)
    conversation_id question

/-- The title of a conversation row, if the row exists. -/
def titleOf (db : DB) (conversation_id : Int) : Option (Option String) :=
  (db.conversations.find? (fun r => r.id = conversation_id)).map (fun r => r.title)

/-! ## Claim statements and concrete instances -/

/-- The six permitted (category, type) pairs exactly as the spec and the
claim name them.  The category names are the classifier's documented
output labels (`categorize_task.expected_output` in
`agents/email_agents.py`: `requires_response, actionable_task,
schedule_event, reminder, no_action, spam`); the spec's event-type names
user-request / incoming-email are rendered by the code strings
`user_request` / `incoming_email`. -/
def permittedPairClaim (cat : String) (ty : Option String) : Prop :=
  (cat = "requires_response" ∧ ty = some "user_request") ∨
  (cat = "actionable_task" ∧ ty = some "incoming_email") ∨
  (cat = "spam" ∧ ty = some "incoming_email") ∨
  (cat = "reminder" ∧ ty = some "user_request") ∨
  (cat = "schedule_event" ∧ ty = some "user_request") ∨
  (cat = "no_action" ∧ ty = some "incoming_email") ∨ False

/-- The six (category, type) pairs the dispatcher code actually accepts
(crew.py lines 279, 324, 344, 347, 394, 414): identical to
`permittedPairClaim` except that the spam branch matches the string
`spam/irrelevant`, not the classifier label `spam`. -/
def permittedPairCode (cat : String) (ty : Option String) : Prop :=
  (cat = "requires_response" ∧ ty = some "user_request") ∨
  (cat = "actionable_task" ∧ ty = some "incoming_email") ∨
  (cat = "spam/irrelevant" ∧ ty = some "incoming_email") ∨
  (cat = "reminder" ∧ ty = some "user_request") ∨
  (cat = "schedule_event" ∧ ty = some "user_request") ∨
  (cat = "no_action" ∧ ty = some "incoming_email") ∨ False

/-- Claim C1 as stated: any (category, type) pair outside the six
permitted pairs yields a result whose type is `unknown_category`. -/
def ClaimC1Statement : Prop :=
  ∀ (env : Env) (o : Oracles) (p : Payload),
    ¬ permittedPairClaim (classifiedCategory o p) p.type →
    ∃ r, (Email_Crew_Pipeline env o p).result = some r ∧ r.type = "unknown_category"

/-- Claim C3 as stated: whenever the event has an `id` or a `question`
key, the dispatcher returns a branch result, for every behaviour of the
category classifier and of the reminder sub-classifier. -/
def ClaimC3Statement : Prop :=
  ∀ (env : Env) (o : Oracles) (e : RawEvent),
    e.id ≠ none ∨ e.question ≠ none →
    ∃ run r,
      (manager_orchestrator env o e = .incomingProcessed run ∨
       manager_orchestrator env o e = .userRequest run) ∧ run.result = some r

/-- The time of day of `cur` is strictly past `h:m` (seconds and
microseconds included): the reading of "past the requested hour and
minute" in claim C7. -/
def timeOfDayPast (cur : PyDateTime) (h m : Nat) : Prop :=
  cur.hour > h ∨ (cur.hour = h ∧ (cur.minute > m ∨
    (cur.minute = m ∧ (cur.second ≠ 0 ∨ cur.microsecond ≠ 0))))

/-- The code condition at next_weekday_date_tool line 30: the time of day
of `cur` is at or past `h:m`, compared at minute granularity. -/
def timeAtOrPastMinute (cur : PyDateTime) (h m : Nat) : Prop :=
  cur.hour > h ∨ (cur.hour = h ∧ cur.minute ≥ m)

/-- Claim C7 as stated: same weekday and time strictly past the requested
time rolls over by exactly 7 days; in every other case the result is the
first occurrence of the weekday at the requested time within 0-6 days. -/
def ClaimC7Statement : Prop :=
  ∀ (cur : PyDateTime) (name : String) (h m target : Nat),
    weekdayLookup (pyLower name) = some target →
    ((cur.day % 7 = target ∧ timeOfDayPast cur h m →
       next_weekday_date_tool cur name h m = some ⟨cur.day + 7, h, m, 0, 0⟩) ∧
     (¬ (cur.day % 7 = target ∧ timeOfDayPast cur h m) →
       next_weekday_date_tool cur name h m =
         some ⟨cur.day + (target + 7 - cur.day % 7) % 7, h, m, 0, 0⟩ ∧
       (target + 7 - cur.day % 7) % 7 ≤ 6))

/-- Claim C8 as stated: a task whose `due_at` is absent or unparseable is
persisted with a due date 3 days from now. -/
def ClaimC8Statement : Prop :=
  ∀ (parse : String → Option PyDateTime) (iso : PyDateTime → String)
    (now : PyDateTime) (userId : Int) (id : String) (t : JsonTask)
    (c : InsertTaskCall),
    processTask parse iso now userId id t = some c →
    pyStrip (t.due_at.getD "") = "" ∨ parse (pyStrip (t.due_at.getD "")) = none →
    c.due_at = some (iso (now.addDays 3))

instance permittedPairClaimDec (c : String) (t : Option String) :
    Decidable (permittedPairClaim c t) := by
  unfold permittedPairClaim; infer_instance

instance permittedPairCodeDec (c : String) (t : Option String) :
    Decidable (permittedPairCode c t) := by
  unfold permittedPairCode; infer_instance

instance timeOfDayPastDec (cur : PyDateTime) (h m : Nat) :
    Decidable (timeOfDayPast cur h m) := by
  unfold timeOfDayPast; infer_instance

instance timeAtOrPastMinuteDec (cur : PyDateTime) (h m : Nat) :
    Decidable (timeAtOrPastMinute cur h m) := by
  unfold timeAtOrPastMinute; infer_instance

/-- True exactly on the incoming-email outcome of the dispatcher. -/
def isIncomingProcessed : DispatchResult → Bool
  | .incomingProcessed _ => true
  | _ => false

/-- A concrete environment for concrete evaluations. -/
def envC : Env := ⟨"2025-06-13 06:03 UTC", "Asia/Singapore"⟩

/-- An oracle assignment whose categorizer always answers `cat` and whose
reminder sub-classifier always answers `remType`; all generator crews
answer the fixed string `ok`. -/
def constOracles (cat remType : String) : Oracles :=
  { categorize := fun _ _ => cat,
    intent := fun _ => "general",
    casual := fun _ => "ok",
    emailResponder := fun _ => "ok",
    taskExecution := fun _ => "ok",
    reminderClassify := fun _ => remType,
    todo := fun _ => "ok",
    event := fun _ => "ok",
    noAction := fun _ => "ok" }

/-- A concrete incoming-email payload (as seeded by the orchestrator for
a webhook event). -/
def incomingP : Payload :=
  { type := some "incoming_email", question := some "", body := some "Buy now!",
    id := some "m1", subject := some "FYI", bodyPreview := some "server updated",
    sender := some "s@x.com", receiver := some "r@x.com",
    receivedDateTime := some "", userId := none,
    conversation_id := some "", attachments := none }

/-- A concrete user-request payload. -/
def userP : Payload :=
  { type := some "user_request", question := some "hello", body := some "",
    subject := some "", sender := some "a@x.com" }

/-- A concrete user-request raw event asking for a reminder. -/
def remindEvent : RawEvent :=
  { question := some "Remind me to call Bob tomorrow", sender := some "a@x.com" }

/-- A raw event carrying both an `id` and a `question` key. -/
def bothKeysEvent : RawEvent := { id := some "m1", question := some "q" }

/-- A raw event with neither `id` nor `question`. -/
def emptyEvent : RawEvent := {}

/-- A concrete date parser recognizing only the word `tomorrow`. -/
def parseTomorrow : String → Option PyDateTime :=
  fun s => if s = "tomorrow" then some ⟨1, 0, 0, 0, 0⟩ else none

/-- A concrete date parser that parses nothing. -/
def parseNothing : String → Option PyDateTime := fun _ => none

/-- A concrete ISO formatter (keyed on the day index only). -/
def isoDay : PyDateTime → String := fun d => toString d.day

/-- A concrete current datetime. -/
def now0 : PyDateTime := ⟨0, 0, 0, 0, 0⟩

/-- A concrete task list for the due-date normalization tool. -/
def tasks0 : List PyDict :=
  [[("title", PyVal.str "call Bob"), ("due_at", PyVal.str "tomorrow")]]

/-- A concrete JSON task with no due date. -/
def taskAbsentDue : JsonTask := ⟨some "call Bob", some "details", none⟩

/-- A concrete JSON task whose due date parses to nothing. -/
def taskBadDue : JsonTask := ⟨some "call Bob", some "details", some "whenever works"⟩

/-- The insert call produced for `taskBadDue` under `parseNothing`. -/
def badDueCall : InsertTaskCall := ⟨5, "m1", "call Bob", "details", none⟩

/-- The insert call produced for `taskAbsentDue` under `parseNothing` and
`isoDay` at `now0`. -/
def absentDueCall : InsertTaskCall := ⟨5, "m1", "call Bob", "details", some "3"⟩

/-- A concrete database with one untitled conversation and no messages. -/
def db0 : DB := ⟨[], [⟨5, none⟩]⟩

/-! ## Helper lemmas -/

theorem classifierContent_eq (p : Payload) :
    classifierContent p =
      if pyStrip (p.question.getD "") ≠ "" then p.question.getD "" else p.body.getD "" := by
  unfold classifierContent
  split_ifs <;> rfl

theorem pipeline_incoming_avoids_user_crews (env : Env) (o : Oracles) (p : Payload)
    (h : p.type = some "incoming_email") :
    CrewName.intentRouter ∉ (Email_Crew_Pipeline env o p).crews ∧
    CrewName.casual ∉ (Email_Crew_Pipeline env o p).crews ∧
    CrewName.emailResponder ∉ (Email_Crew_Pipeline env o p).crews := by
  simp only [Email_Crew_Pipeline]
  split_ifs with h1 h2 h3 h4 h5 h6 h7 h8 h9 h10 <;> simp_all

theorem pipeline_none_shape (env : Env) (o : Oracles) (p : Payload)
    (h : (Email_Crew_Pipeline env o p).result = none) :
    (Email_Crew_Pipeline env o p).crews = [CrewName.categorizer, CrewName.reminder] := by
  simp only [Email_Crew_Pipeline] at h ⊢
  split_ifs at h ⊢ <;> simp_all

/-! ## Claims -/

/-- Claim C2: an event with neither an `id` key nor a `question` key makes
the dispatcher fail with the malformed-payload error (the `ValueError` of
crew.py line 249, named `MalformedEventError` by the spec) and no branch
pipeline runs. -/
theorem C2_malformed_event (env : Env) (o : Oracles) (e : RawEvent)
    (h1 : e.id = none) (h2 : e.question = none) :
    manager_orchestrator env o e = .malformed malformedMsg ∧
    dispatchCrews (manager_orchestrator env o e) = [] := by
  unfold manager_orchestrator
  rw [h1, h2]
  exact ⟨rfl, rfl⟩

theorem C2_malformed_event_witness :
    manager_orchestrator envC (constOracles "x" "y") emptyEvent =
      .malformed malformedMsg ∧
    dispatchCrews (manager_orchestrator envC (constOracles "x" "y") emptyEvent) = [] :=
  C2_malformed_event envC (constOracles "x" "y") emptyEvent rfl rfl

/-- Claim C10: when the event carries both `id` and `question`, the `id`
check wins — the dispatcher takes the incoming-email path and never runs
the user-request crews (intent router, casual responder, email
responder). -/
theorem C10_id_precedence (env : Env) (o : Oracles) (e : RawEvent) (i q : String)
    (hid : e.id = some i) (hq : e.question = some q) :
    isIncomingProcessed (manager_orchestrator env o e) = true ∧
    CrewName.intentRouter ∉ dispatchCrews (manager_orchestrator env o e) ∧
    CrewName.casual ∉ dispatchCrews (manager_orchestrator env o e) ∧
    CrewName.emailResponder ∉ dispatchCrews (manager_orchestrator env o e) := by
  have hmo : manager_orchestrator env o e =
      .incomingProcessed (Email_Crew_Pipeline env o (incomingPayload e i)) := by
    unfold manager_orchestrator
    rw [hid]
  rw [hmo]
  have := pipeline_incoming_avoids_user_crews env o (incomingPayload e i) rfl
  exact ⟨rfl, this.1, this.2.1, this.2.2⟩

theorem C10_id_precedence_witness :
    isIncomingProcessed (manager_orchestrator envC (constOracles "requires_response" "todo") bothKeysEvent) = true ∧
    CrewName.intentRouter ∉ dispatchCrews (manager_orchestrator envC (constOracles "requires_response" "todo") bothKeysEvent) ∧
    CrewName.casual ∉ dispatchCrews (manager_orchestrator envC (constOracles "requires_response" "todo") bothKeysEvent) ∧
    CrewName.emailResponder ∉ dispatchCrews (manager_orchestrator envC (constOracles "requires_response" "todo") bothKeysEvent) :=
  C10_id_precedence envC (constOracles "requires_response" "todo") bothKeysEvent "m1" "q" rfl rfl

/-- Claim C4: the text handed to the category classifier is the payload's
`question` value when it is non-empty after trimming, and otherwise the
payload's `body` value (crew.py lines 258-263). -/
theorem C4_classifier_content (env : Env) (o : Oracles) (p : Payload) :
    (Email_Crew_Pipeline env o p).categorizerInput =
      if pyStrip (p.question.getD "") ≠ "" then p.question.getD "" else p.body.getD "" := by
  rw [← classifierContent_eq]
  simp only [Email_Crew_Pipeline]
  split_ifs <;> rfl

/-- Claim C1 as stated is false: the claim lists the permitted spam pair
with the classifier's documented label `spam`, but the dispatcher's spam
branch (crew.py line 344) matches the distinct string `spam/irrelevant`.
A classifier output of `spam/irrelevant` on an incoming email is outside
the claim's six pairs, yet the result type is `spam/irrelevant`, not
`unknown_category`. -/
theorem C1_pair_table_counterexample : ¬ ClaimC1Statement := by
  intro h
  obtain ⟨r, hr, ht⟩ :=
    h envC (constOracles "spam/irrelevant" "todo") incomingP (by decide)
  have hres : (Email_Crew_Pipeline envC (constOracles "spam/irrelevant" "todo") incomingP).result =
      some ⟨"spam/irrelevant", spamSkipMsg, none, false⟩ := by decide
  rw [hres] at hr
  cases hr
  exact absurd ht (by decide)

set_option maxHeartbeats 2000000 in
/-- Claim C1 amended: with the permitted pairs as the code spells them
(the spam pair being (`spam/irrelevant`, incoming-email)), every other
(category, type) pair falls through to the fixed `unknown_category`
result. -/
theorem C1_unknown_category_amended (env : Env) (o : Oracles) (p : Payload)
    (h : ¬ permittedPairCode (classifiedCategory o p) p.type) :
    (Email_Crew_Pipeline env o p).result =
      some ⟨"unknown_category", unknownCategoryMsg, none, false⟩ := by
  simp only [Email_Crew_Pipeline]
  split_ifs with h1 h2 h3 h4 h5 h6 h7 h8 h9 h10 <;>
    first
      | rfl
      | (exact absurd (by unfold permittedPairCode; tauto) h)

theorem C1_unknown_category_witness :
    (Email_Crew_Pipeline envC (constOracles "banana" "todo") userP).result =
      some ⟨"unknown_category", unknownCategoryMsg, none, false⟩ :=
  C1_unknown_category_amended envC (constOracles "banana" "todo") userP (by decide)

/-- Claim C3 as stated is false: with classifier output `reminder` on a
user request and a reminder sub-classifier output that is neither `todo`
nor `event`, the elif chain of crew.py lines 354-392 runs out without a
`return`, so `Email_Crew_Pipeline` returns Python `None` rather than a
branch result. -/
theorem C3_total_result_counterexample : ¬ ClaimC3Statement := by
  intro h
  obtain ⟨run, r, hor, hr⟩ :=
    h envC (constOracles "reminder" "someday") remindEvent (Or.inr (by decide))
  have key : dispatchRunResult (manager_orchestrator envC (constOracles "reminder" "someday") remindEvent) =
      some none := by decide
  rcases hor with h1 | h1 <;>
    (rw [h1] at key
     simp only [dispatchRunResult, Option.some.injEq] at key
     rw [key] at hr
     exact Option.noConfusion hr)

/-- Claim C3 amended: whenever the event has an `id` or a `question` key
the pipeline runs and returns a branch result, except in one case — the
category is `reminder` on a user request and the reminder sub-classifier
answers neither `todo` nor `event`; there the pipeline stops after the
reminder sub-classifier crew and returns no result (Python `None`). -/
theorem C3_result_amended (env : Env) (o : Oracles) (e : RawEvent)
    (h : e.id ≠ none ∨ e.question ≠ none) :
    (dispatchRunResult (manager_orchestrator env o e)).isSome = true ∧
    (dispatchRunResult (manager_orchestrator env o e) = some none →
      dispatchCrews (manager_orchestrator env o e) =
        [CrewName.categorizer, CrewName.reminder]) := by
  cases hid : e.id with
  | some i =>
    have hmo : manager_orchestrator env o e =
        .incomingProcessed (Email_Crew_Pipeline env o (incomingPayload e i)) := by
      unfold manager_orchestrator
      rw [hid]
    rw [hmo]
    refine ⟨rfl, fun hnone => ?_⟩
    simp only [dispatchRunResult, Option.some.injEq] at hnone
    simpa [dispatchCrews] using pipeline_none_shape env o (incomingPayload e i) hnone
  | none =>
    cases hq : e.question with
    | some q =>
      have hmo : manager_orchestrator env o e =
          .userRequest (Email_Crew_Pipeline env o (userRequestPayload e q)) := by
        unfold manager_orchestrator
        rw [hid, hq]
      rw [hmo]
      refine ⟨rfl, fun hnone => ?_⟩
      simp only [dispatchRunResult, Option.some.injEq] at hnone
      simpa [dispatchCrews] using pipeline_none_shape env o (userRequestPayload e q) hnone
    | none =>
      rw [hid, hq] at h
      simp at h

theorem C3_result_amended_witness :
    (dispatchRunResult (manager_orchestrator envC (constOracles "reminder" "someday") remindEvent)).isSome = true ∧
    (dispatchRunResult (manager_orchestrator envC (constOracles "reminder" "someday") remindEvent) = some none →
      dispatchCrews (manager_orchestrator envC (constOracles "reminder" "someday") remindEvent) =
        [CrewName.categorizer, CrewName.reminder]) :=
  C3_result_amended envC (constOracles "reminder" "someday") remindEvent (Or.inr (by decide))

/-- Claim C5 targets a code bug: the categorizer's documented output label
for junk mail is `spam` (`categorize_task.expected_output` in
`agents/email_agents.py`), but the dispatcher's spam branch matches only
the string `spam/irrelevant` (crew.py line 344).  Evaluated at the failing
input — an incoming-email event whose classifier answers its documented
label `spam` — the normalized category is `spam`, and the dispatcher falls
through to `unknown_category` instead of returning the fixed skip result
claimed by the spec. -/
theorem C5_spam_label_dead_branch :
    classifiedCategory (constOracles "spam" "todo") incomingP = "spam" ∧
    (Email_Crew_Pipeline envC (constOracles "spam" "todo") incomingP).result =
      some ⟨"unknown_category", unknownCategoryMsg, none, false⟩ ∧
    (Email_Crew_Pipeline envC (constOracles "spam" "todo") incomingP).result ≠
      some ⟨"spam/irrelevant", spamSkipMsg, none, false⟩ := by
  refine ⟨by decide, by decide, by decide⟩

theorem update_title_messages (db : DB) (cid : Int) (q : String) :
    (update_conversation_title db cid q).messages = db.messages := by
  unfold update_conversation_title
  split_ifs <;> rfl

theorem update_title_count (db : DB) (cid cid2 : Int) (q : String) :
    countMessages (update_conversation_title db cid q) cid2 = countMessages db cid2 := by
  unfold countMessages
  rw [update_title_messages]

/-- Claim C9: `record_qa` appends the (question, answer) message pair for
the conversation, raising its message count by exactly 2, and then sets
the conversation title to the question exactly when the count after the
inserts is 2; for any other count the conversations table is untouched, so
the retitle can fire at most once and later pairs never overwrite it. -/
theorem C9_record_qa_retitle (db : DB) (cid : Int) (q a : String) (f : Option String) :
    (record_qa db cid q a f).messages =
      db.messages ++ [⟨cid, true, q, f⟩, ⟨cid, false, a, f⟩] ∧
    countMessages (record_qa db cid q a f) cid = countMessages db cid + 2 ∧
    (countMessages (record_qa db cid q a f) cid = 2 →
      ∀ r, db.conversations.find? (fun r => r.id = cid) = some r →
        titleOf (record_qa db cid q a f) cid = some (some q)) ∧
    (countMessages (record_qa db cid q a f) cid ≠ 2 →
      (record_qa db cid q a f).conversations = db.conversations) := by
  have hmsg2 : (insert_message (insert_message db cid true q f) cid false a f).messages =
      db.messages ++ [⟨cid, true, q, f⟩, ⟨cid, false, a, f⟩] := by
    simp [insert_message]
  have hcount2 : countMessages (insert_message (insert_message db cid true q f) cid false a f) cid =
      countMessages db cid + 2 := by
    unfold countMessages
    rw [hmsg2]
    simp [List.filter_append]
  have hmsg : (record_qa db cid q a f).messages =
      db.messages ++ [⟨cid, true, q, f⟩, ⟨cid, false, a, f⟩] := by
    unfold record_qa
    rw [update_title_messages]
    exact hmsg2
  have hcount : countMessages (record_qa db cid q a f) cid = countMessages db cid + 2 := by
    unfold record_qa
    rw [update_title_count]
    exact hcount2
  refine ⟨hmsg, hcount, ?_, ?_⟩
  · intro h2 r hr
    have hc2 : countMessages (insert_message (insert_message db cid true q f) cid false a f) cid = 2 := by
      rw [hcount2, ← hcount]
      exact h2
    have hg : ∀ row : ConversationRow,
        (if row.id = cid then { row with title := some q } else row).id = row.id := by
      intro row
      by_cases hrow : row.id = cid
      · rw [if_pos hrow]
      · rw [if_neg hrow]
    unfold record_qa update_conversation_title titleOf
    rw [if_pos hc2]
    have hconv : (insert_message (insert_message db cid true q f) cid false a f).conversations
        = db.conversations := rfl
    rw [hconv, List.find?_map]
    have hpg : ((fun r : ConversationRow => decide (r.id = cid)) ∘
        (fun row : ConversationRow => if row.id = cid then { row with title := some q } else row)) =
        (fun r : ConversationRow => decide (r.id = cid)) := by
      funext row
      simp only [Function.comp_apply]
      rw [hg row]
    rw [hpg, hr]
    have hid : r.id = cid := by
      have := List.find?_some hr
      simpa using this
    simp only [Option.map_some']
    rw [if_pos hid]
  · intro hne
    have hc2 : countMessages (insert_message (insert_message db cid true q f) cid false a f) cid ≠ 2 := by
      rw [hcount2, ← hcount]
      exact hne
    unfold record_qa update_conversation_title
    rw [if_neg hc2]
    rfl

theorem C9_record_qa_retitle_witness :
    titleOf (record_qa db0 5 "What is up" "All good" none) 5 = some (some "What is up") :=
  (C9_record_qa_retitle db0 5 "What is up" "All good" none).2.2.1 (by decide)
    ⟨5, none⟩ (by decide)

theorem dictSet_preserves_fst (k : String) (v : PyVal) (p : String × PyVal) :
    ((if p.1 = k then (k, v) else p) : String × PyVal).1 = p.1 := by
  by_cases hp : p.1 = k
  · rw [if_pos hp, hp]
  · rw [if_neg hp]

theorem dictContains_iff_find (k : String) (d : PyDict) :
    dictContains k d = true ↔ (d.find? (fun p => p.1 = k)).isSome := by
  simp [dictContains, List.any_eq_true, List.find?_isSome]

theorem dictLookup_dictSet_self (k : String) (v : PyVal) (d : PyDict) :
    dictLookup k (dictSet k v d) = some v := by
  unfold dictSet
  by_cases hc : dictContains k d = true
  · rw [if_pos hc]
    unfold dictLookup
    rw [List.find?_map]
    have hpg : ((fun p : String × PyVal => decide (p.1 = k)) ∘
        (fun p : String × PyVal => if p.1 = k then (k, v) else p)) =
        (fun p : String × PyVal => decide (p.1 = k)) := by
      funext p
      simp only [Function.comp_apply]
      rw [dictSet_preserves_fst]
    rw [hpg]
    obtain ⟨p, hp⟩ := Option.isSome_iff_exists.mp ((dictContains_iff_find k d).mp hc)
    rw [hp]
    have hk : p.1 = k := by simpa using List.find?_some hp
    simp [hk]
  · rw [if_neg hc]
    unfold dictLookup
    have hnone : d.find? (fun p => p.1 = k) = none := by
      rw [← Option.not_isSome_iff_eq_none]
      intro hsome
      exact hc ((dictContains_iff_find k d).mpr hsome)
    rw [List.find?_append, hnone]
    simp [List.find?]

theorem dictLookup_dictSet_ne (k k2 : String) (v : PyVal) (d : PyDict) (h : k2 ≠ k) :
    dictLookup k2 (dictSet k v d) = dictLookup k2 d := by
  unfold dictSet
  by_cases hc : dictContains k d = true
  · rw [if_pos hc]
    unfold dictLookup
    rw [List.find?_map]
    have hpg : ((fun p : String × PyVal => decide (p.1 = k2)) ∘
        (fun p : String × PyVal => if p.1 = k then (k, v) else p)) =
        (fun p : String × PyVal => decide (p.1 = k2)) := by
      funext p
      simp only [Function.comp_apply]
      rw [dictSet_preserves_fst]
    rw [hpg]
    cases hf : d.find? (fun p => p.1 = k2) with
    | none => rfl
    | some p =>
      have hk2 : p.1 = k2 := by simpa using List.find?_some hf
      have hpk : ¬ p.1 = k := by
        rw [hk2]
        exact h
      simp [if_neg hpk]
  · rw [if_neg hc]
    unfold dictLookup
    rw [List.find?_append]
    cases hf : d.find? (fun p => p.1 = k2) with
    | none =>
      have hkk : ¬ (((k, v) : String × PyVal).1 = k2) := fun hkk => h hkk.symm
      rw [List.find?_cons_of_neg _ (by simpa using hkk)]
      rfl
    | some p => rfl

theorem dictLookup_dictPop_self (k : String) (d : PyDict) :
    dictLookup k (dictPop k d) = none := by
  unfold dictLookup dictPop
  have hnone : (d.filter (fun p => p.1 ≠ k)).find? (fun p => p.1 = k) = none := by
    rw [List.find?_eq_none]
    intro p hp
    have hmem := (List.mem_filter.mp hp).2
    simp only [decide_eq_true_eq] at hmem ⊢
    exact hmem
  rw [hnone]
  rfl

theorem dictLookup_dictPop_ne (k k2 : String) (d : PyDict) (h : k2 ≠ k) :
    dictLookup k2 (dictPop k d) = dictLookup k2 d := by
  unfold dictLookup dictPop
  induction d with
  | nil => rfl
  | cons a t ih =>
    by_cases haq : a.1 = k
    · have ha2 : ¬ (a.1 = k2) := by
        rw [haq]
        exact fun hkk => h hkk.symm
      rw [List.filter_cons_of_neg (by simpa using haq),
          List.find?_cons_of_neg _ (by simpa using ha2)]
      exact ih
    · rw [List.filter_cons_of_pos (by simpa using haq)]
      by_cases ha2 : a.1 = k2
      · rw [List.find?_cons_of_pos _ (by simpa using ha2),
            List.find?_cons_of_pos _ (by simpa using ha2)]
      · rw [List.find?_cons_of_neg _ (by simpa using ha2),
            List.find?_cons_of_neg _ (by simpa using ha2)]
        exact ih

theorem normalizeTask_other_keys (parse : String → Option PyDateTime)
    (iso : PyDateTime → String) (t : PyDict) (k2 : String) (h : k2 ≠ "due_at") :
    dictLookup k2 (normalizeTask parse iso t) = dictLookup k2 t := by
  cases hdl : dictLookup "due_at" t with
  | none =>
    simp only [normalizeTask, hdl]
    exact dictLookup_dictPop_ne _ _ _ h
  | some val =>
    cases val with
    | str s =>
      cases hps : parse s with
      | none =>
        simp only [normalizeTask, hdl, hps]
        exact dictLookup_dictPop_ne _ _ _ h
      | some d =>
        simp only [normalizeTask, hdl, hps]
        exact dictLookup_dictSet_ne _ _ _ _ h
    | pynone =>
      simp only [normalizeTask, hdl]
      exact dictLookup_dictPop_ne _ _ _ h
    | other =>
      simp only [normalizeTask, hdl]

/-- Claim C6: for every task in the list, due-date normalization replaces
a string `due_at` that `parse` (the future-biased `dateparser.parse`)
accepts with the ISO timestamp of the parsed date, removes the `due_at`
key entirely when the string is unparseable or the value is `None` (the
literal string is never kept), and leaves every other key of every task
unchanged. -/
theorem C6_normalize_due_dates (parse : String → Option PyDateTime)
    (iso : PyDateTime → String) (tasks : List PyDict) (i : Nat)
    (h1 : i < tasks.length) (h2 : i < (normalize_due_dates parse iso tasks).length) :
    (∀ k2, k2 ≠ "due_at" →
      dictLookup k2 ((normalize_due_dates parse iso tasks).get ⟨i, h2⟩) =
        dictLookup k2 (tasks.get ⟨i, h1⟩)) ∧
    (∀ s d, dictLookup "due_at" (tasks.get ⟨i, h1⟩) = some (PyVal.str s) →
      parse s = some d →
      dictLookup "due_at" ((normalize_due_dates parse iso tasks).get ⟨i, h2⟩) =
        some (PyVal.str (iso d))) ∧
    (∀ s, dictLookup "due_at" (tasks.get ⟨i, h1⟩) = some (PyVal.str s) →
      parse s = none →
      dictLookup "due_at" ((normalize_due_dates parse iso tasks).get ⟨i, h2⟩) = none) ∧
    (dictLookup "due_at" (tasks.get ⟨i, h1⟩) = some PyVal.pynone →
      dictLookup "due_at" ((normalize_due_dates parse iso tasks).get ⟨i, h2⟩) = none) := by
  have key : (normalize_due_dates parse iso tasks).get ⟨i, h2⟩ =
      normalizeTask parse iso (tasks.get ⟨i, h1⟩) := by
    unfold normalize_due_dates
    simp [List.get_eq_getElem, List.getElem_map]
  refine ⟨?_, ?_, ?_, ?_⟩
  · intro k2 hk2
    rw [key]
    exact normalizeTask_other_keys parse iso _ k2 hk2
  · intro s d hs hp
    rw [key]
    simp only [normalizeTask, hs, hp]
    exact dictLookup_dictSet_self _ _ _
  · intro s hs hp
    rw [key]
    simp only [normalizeTask, hs, hp]
    exact dictLookup_dictPop_self _ _
  · intro hs
    rw [key]
    simp only [normalizeTask, hs]
    exact dictLookup_dictPop_self _ _

theorem C6_normalize_due_dates_witness :
    dictLookup "due_at" ((normalize_due_dates parseTomorrow isoDay tasks0).get ⟨0, by decide⟩) =
      some (PyVal.str (isoDay ⟨1, 0, 0, 0, 0⟩)) :=
  (C6_normalize_due_dates parseTomorrow isoDay tasks0 0 (by decide) (by decide)).2.1
    "tomorrow" ⟨1, 0, 0, 0, 0⟩ (by decide) (by decide)

theorem weekdayLookup_lt (s : String) (t : Nat) (h : weekdayLookup s = some t) : t < 7 := by
  unfold weekdayLookup at h
  split_ifs at h <;> simp_all <;> omega

/-- Claim C7 as stated is false at the exact-equality boundary: at Monday
09:00:00.000000 asking for Monday 9:00, the time of day is not *past* the
requested hour and minute, so the claim requires the first occurrence
within 0-6 days (today, 0 days ahead); the code condition at
next_weekday_date_tool line 30 uses `minute >= minute` and rolls over to 7
days later. -/
theorem C7_rollover_counterexample : ¬ ClaimC7Statement := by
  intro h
  have hmap : weekdayLookup (pyLower "monday") = some 0 := by decide
  have h2 := (h ⟨0, 9, 0, 0, 0⟩ "monday" 9 0 0 hmap).2 (by decide)
  have h3 : next_weekday_date_tool ⟨0, 9, 0, 0, 0⟩ "monday" 9 0 = some ⟨7, 9, 0, 0, 0⟩ := by
    decide
  rw [h3] at h2
  exact absurd h2.1 (by decide)

/-- Claim C7 amended: the rollover condition is *at or past* the requested
time, compared at minute granularity (hour > h, or hour = h and
minute ≥ m; seconds are ignored): under that condition on the matching
weekday the tool returns the datetime exactly 7 days later at the
requested time, and in every other case the first occurrence of the
weekday at the requested time within 0-6 days. -/
theorem C7_rollover_amended (cur : PyDateTime) (name : String) (h m target : Nat)
    (hw : weekdayLookup (pyLower name) = some target) :
    (cur.day % 7 = target ∧ timeAtOrPastMinute cur h m →
      next_weekday_date_tool cur name h m = some ⟨cur.day + 7, h, m, 0, 0⟩) ∧
    (¬ (cur.day % 7 = target ∧ timeAtOrPastMinute cur h m) →
      next_weekday_date_tool cur name h m =
        some ⟨cur.day + (target + 7 - cur.day % 7) % 7, h, m, 0, 0⟩ ∧
      (target + 7 - cur.day % 7) % 7 ≤ 6) := by
  have ht7 : target < 7 := weekdayLookup_lt _ _ hw
  have hd7 : cur.day % 7 < 7 := Nat.mod_lt _ (by omega)
  unfold next_weekday_date_tool
  rw [hw]
  simp only [Option.map_some']
  constructor
  · rintro ⟨heq, hcond⟩
    have h0 : (target + 7 - cur.day % 7) % 7 = 0 := by omega
    rw [if_pos ⟨h0, hcond⟩]
  · intro hn
    by_cases heq : cur.day % 7 = target
    · have hcond : ¬ timeAtOrPastMinute cur h m := fun hc => hn ⟨heq, hc⟩
      have h0 : (target + 7 - cur.day % 7) % 7 = 0 := by omega
      refine ⟨?_, by omega⟩
      rw [if_neg]
      rintro ⟨h01, hcd⟩
      exact hcond hcd
    · have hne0 : (target + 7 - cur.day % 7) % 7 ≠ 0 := by omega
      refine ⟨?_, by omega⟩
      rw [if_neg]
      rintro ⟨h01, hcd⟩
      exact hne0 h01

theorem C7_rollover_amended_witness :
    next_weekday_date_tool ⟨0, 10, 0, 0, 0⟩ "Monday" 9 30 = some ⟨7, 9, 30, 0, 0⟩ :=
  (C7_rollover_amended ⟨0, 10, 0, 0, 0⟩ "Monday" 9 30 0 (by decide)).1 (by decide)

/-- Claim C8 as stated is false for the unparseable case: when a task
carries a non-empty `due_at` string that `dateparser` cannot parse,
`parse_date` returns `None` and the task is inserted with `due_at = None`
(create_tasks_tool.py line 55), not with the 3-days-from-now default; the
default applies only when `due_at` is absent or blank. -/
theorem C8_default_due_counterexample : ¬ ClaimC8Statement := by
  intro h
  have hx := h parseNothing isoDay now0 5 "m1" taskBadDue badDueCall (by decide)
    (Or.inr (by decide))
  exact absurd hx (by decide)

/-- Claim C8 amended: a task whose `due_at` is absent (or blank after
strip) is persisted with a due date 3 days from now; a task whose
non-empty `due_at` string is unparseable is persisted with a null due
date. -/
theorem C8_default_due_amended (parse : String → Option PyDateTime)
    (iso : PyDateTime → String) (now : PyDateTime) (userId : Int) (id : String)
    (t : JsonTask) (c : InsertTaskCall)
    (hc : processTask parse iso now userId id t = some c) :
    (pyStrip (t.due_at.getD "") = "" → c.due_at = some (iso (now.addDays 3))) ∧
    (pyStrip (t.due_at.getD "") ≠ "" → parse (pyStrip (t.due_at.getD "")) = none →
      c.due_at = none) := by
  simp only [processTask] at hc
  by_cases hskip : pyStrip (t.title.getD "") = "" ∨ pyStrip (t.detail.getD "") = ""
  · rw [if_pos hskip] at hc
    exact absurd hc (by simp)
  · rw [if_neg hskip] at hc
    have hdue : c.due_at =
        (if pyStrip (t.due_at.getD "") ≠ "" then parse (pyStrip (t.due_at.getD ""))
         else some (now.addDays 3)).map iso := by
      rw [← Option.some.inj hc]
    constructor
    · intro hemp
      rw [hdue, if_neg (fun hne => hne hemp)]
      rfl
    · intro hne hp
      rw [hdue, if_pos hne, hp]
      rfl

theorem C8_default_due_amended_witness :
    absentDueCall.due_at = some (isoDay (now0.addDays 3)) :=
  (C8_default_due_amended parseNothing isoDay now0 5 "m1" taskAbsentDue absentDueCall
    (by decide)).1 (by decide)

end EmailWorkflow
